import Mathlib

/-!
Shallow embedding of the speech-to-text service in `src/main.py`
(a FastAPI app with a `POST /transcribe` pipeline and a `GET /health`
endpoint), together with theorems settling the specification claims.

Python floats are modelled as rationals; the filesystem and the
recognition engine are modelled by explicit behaviour parameters, and the
pipeline returns, next to its HTTP outcome, a trace recording the
ephemeral-file lifecycle and the engine invocations.
-/

namespace STT

/-- A single quote character, used when assembling error messages. -/
def sq : String := (Char.ofNat 39).toString

/-- `ALLOWED_EXTENSIONS = {".wav", ".webm", ".mp3", ".ogg", ".m4a"}` from
`src/main.py`.  The Python value is a `set`; we fix the source-literal
order.  Only membership and the joined rendering are used. -/
def ALLOWED_EXTENSIONS : List String := [".wav", ".webm", ".mp3", ".ogg", ".m4a"]

/-- Last index of `c` in `cs`, or `-1` when absent — Python `str.rfind`. -/
def pyRfind (cs : List Char) (c : Char) : Int :=
  match (cs.reverse).findIdx? (· == c) with
  | none => -1
  | some i => (cs.length : Int) - 1 - (i : Int)

/-- The extension component of `os.path.splitext(p)` (POSIX flavour):
the suffix from the last dot, provided that dot lies after the last `/`
and at least one non-dot character stands between them (leading dots of
the basename never start an extension). -/
def splitextExt (p : String) : String :=
  let cs := p.data
  let sepIndex := pyRfind cs '/'
  let dotIndex := pyRfind cs '.'
  if dotIndex > sepIndex ∧
      ((List.range cs.length).any (fun i =>
        decide (sepIndex + 1 ≤ (i : Int)) && decide ((i : Int) < dotIndex)
          && (cs.getD i '.' != '.'))) = true
  then String.mk (cs.drop dotIndex.toNat)
  else ""

/-- Lower-case one character (extensions in play are ASCII). -/
def pyLowerChar (c : Char) : Char :=
  if 65 ≤ c.toNat ∧ c.toNat ≤ 90 then Char.ofNat (c.toNat + 32) else c

/-- Python `str.lower()`, character by character. -/
def pyLower (s : String) : String := String.mk (s.data.map pyLowerChar)

/-- The characters Python `str.strip()` removes (ASCII whitespace). -/
def pyIsSpace (c : Char) : Bool :=
  c == ' ' || c == '\t' || c == '\n' || c == '\x0d' || c == '\x0b' || c == '\x0c'

/-- Python `str.strip()`: drop whitespace from both ends. -/
def pyStrip (s : String) : String :=
  String.mk (((s.data.dropWhile pyIsSpace).reverse.dropWhile pyIsSpace).reverse)

/-- Python `sep.join(xs)`: the first element, then `sep ++ x` folded over
the rest (empty iterable gives `""`). -/
def pyJoin (sep : String) (xs : List String) : String :=
  match xs with
  | [] => ""
  | x :: rest => rest.foldl (fun acc y => acc ++ sep ++ y) x

/-- The rendering of the allow-list in the 400 message:
`", ".join(ALLOWED_EXTENSIONS)` (Python set iteration order is
unspecified; we fix the source-literal order). -/
def allowedListStr : String := pyJoin ", " ALLOWED_EXTENSIONS

/-- The 400 detail string
`f"Unsupported file type '{ext}'. Allowed: {', '.join(ALLOWED_EXTENSIONS)}"`. -/
def unsupportedMsg (ext : String) : String :=
  "Unsupported file type " ++ sq ++ ext ++ sq ++ ". Allowed: " ++ allowedListStr

/-- Round to the nearest integer, ties to even — Python `round`'s tie rule. -/
def roundHalfEven (q : ℚ) : ℤ :=
  if q - (⌊q⌋ : ℚ) < 1/2 then ⌊q⌋
  else if q - (⌊q⌋ : ℚ) > 1/2 then ⌊q⌋ + 1
  else if ⌊q⌋ % 2 = 0 then ⌊q⌋ else ⌊q⌋ + 1

/-- Python `round(x, 2)` on a rational model of the float. -/
def pyRound2 (q : ℚ) : ℚ := (roundHalfEven (q * 100) : ℚ) / 100

/-- The `vad_parameters` sub-dict of the decoding options. -/
structure VadParameters where
  min_silence_duration_ms : Nat
  speech_pad_ms : Nat
  deriving DecidableEq, Repr

/-- The `transcribe_opts` dict built in `src/main.py` lines 67–84:
fixed speed-tuning fields, a normalized task, and an optional language. -/
structure TranscribeOpts where
  task : String
  beam_size : Nat
  best_of : Nat
  temperature : ℚ
  vad_filter : Bool
  vad_parameters : VadParameters
  language : Option String
  deriving DecidableEq, Repr

/-- Building `transcribe_opts` from the two request parameters:
`task if task in ("transcribe", "translate") else "transcribe"`, the
fixed tuning constants, and
`if language and language != "auto": opts["language"] = language`
(the `if language` test is Python truthiness: `None` and `""` are falsy). -/
def buildOpts (task : String) (language : Option String) : TranscribeOpts :=
  { task := if task = "transcribe" ∨ task = "translate" then task else "transcribe"
    beam_size := 1
    best_of := 1
    temperature := 0
    vad_filter := true
    vad_parameters := { min_silence_duration_ms := 300, speech_pad_ms := 200 }
    language :=
      match language with
      | none => none
      | some l => if l ≠ "" ∧ l ≠ "auto" then some l else none }

/-- One engine segment (we keep only the `text` attribute the code reads). -/
structure Segment where
  text : String
  deriving DecidableEq, Repr

/-- The summary metadata returned by the engine.  The attributes the code
reads are `language` and `language_probability`; per the spec's engine
interface both pieces of metadata are optional, so we model each as an
`Option` (an absent value stands for Python `None`). -/
structure EngineInfo where
  language : Option String
  language_probability : Option ℚ
  deriving DecidableEq, Repr

/-- `text = " ".join(seg.text.strip() for seg in segments)`. -/
def assembleText (segments : List Segment) : String :=
  pyJoin " " (segments.map (fun seg => pyStrip seg.text))

/-- Behaviour of the ephemeral-file save step
(`tempfile.NamedTemporaryFile(delete=False)` plus `tmp.write`):
creation may fail before the file exists, the write may fail after the
file was created, or everything succeeds. -/
inductive SaveBehavior where
  | ok
  | createFails (msg : String)
  | writeFails (msg : String)
  deriving DecidableEq, Repr

/-- Behaviour of `app.state.model.transcribe` plus the consumption of its
lazy segment iterator: it yields segments and info, or raises. -/
inductive EngineBehavior where
  | ok (segments : List Segment) (info : EngineInfo)
  | raises (msg : String)
  deriving DecidableEq, Repr

/-- The request outcome.  `success` is the 200 `JSONResponse`;
`httpError` is a raised `HTTPException`; `unhandledTypeError` is the
`TypeError` that `round(None, 2)` raises outside every `try` block, which
escapes the handler instead of producing the JSON response. -/
inductive Outcome where
  | success (text : String) (detected_language : Option String)
      (language_probability : ℚ)
  | httpError (status : Nat) (detail : String)
  | unhandledTypeError
  deriving DecidableEq, Repr

/-- Whether an outcome is a 400-class rejection. -/
def Outcome.is400 : Outcome → Bool
  | .httpError 400 _ => true
  | _ => false

/-- Whether an outcome is the 200 success response. -/
def Outcome.isSuccess : Outcome → Bool
  | .success _ _ _ => true
  | _ => false

/-- Trace of one request: how often the save step ran, whether the
ephemeral file was created, how many `os.remove` calls were made, whether
the file still exists after the handler finishes, how often the engine
was invoked, and with which options. -/
structure Trace where
  saveCalls : Nat
  tempCreated : Bool
  removeAttempts : Nat
  tempExistsAfter : Bool
  engineCalls : Nat
  engineOpts : Option TranscribeOpts
  deriving DecidableEq, Repr

/-- The `POST /transcribe` handler of `src/main.py`, step by step:
extension extraction and allow-list check (400 on rejection, before any
side effect); the temp-file save inside its own `try/except` (500 on
failure — note the file, once created by `NamedTemporaryFile`, is not
removed on a write failure, since the cleanup `finally` belongs to the
later `try`); option building; the engine call inside `try/finally`
(500 on engine failure, `os.remove` on every exit of that block); and
the final `JSONResponse`, whose `round(info.language_probability, 2)`
raises a `TypeError` when the engine supplied no probability. -/
def transcribeEndpoint (filename : Option String) (language : Option String)
    (task : String) (save : SaveBehavior) (engine : EngineBehavior) :
    Outcome × Trace :=
  let ext := pyLower (splitextExt (filename.getD ""))
  if ext ∉ ALLOWED_EXTENSIONS then
    (.httpError 400 (unsupportedMsg ext),
     { saveCalls := 0, tempCreated := false, removeAttempts := 0,
       tempExistsAfter := false, engineCalls := 0, engineOpts := none })
  else
    match save with
    | .createFails m =>
        (.httpError 500 ("Failed to save file: " ++ m),
         { saveCalls := 1, tempCreated := false, removeAttempts := 0,
           tempExistsAfter := false, engineCalls := 0, engineOpts := none })
    | .writeFails m =>
        (.httpError 500 ("Failed to save file: " ++ m),
         { saveCalls := 1, tempCreated := true, removeAttempts := 0,
           tempExistsAfter := true, engineCalls := 0, engineOpts := none })
    | .ok =>
        let opts := buildOpts task language
        match engine with
        | .raises m =>
            (.httpError 500 ("Transcription failed: " ++ m),
             { saveCalls := 1, tempCreated := true, removeAttempts := 1,
               tempExistsAfter := false, engineCalls := 1, engineOpts := some opts })
        | .ok segments info =>
            let text := assembleText segments
            match info.language_probability with
            | none =>
                (.unhandledTypeError,
                 { saveCalls := 1, tempCreated := true, removeAttempts := 1,
                   tempExistsAfter := false, engineCalls := 1,
                   engineOpts := some opts })
            | some p =>
                (.success text info.language (pyRound2 p),
                 { saveCalls := 1, tempCreated := true, removeAttempts := 1,
                   tempExistsAfter := false, engineCalls := 1,
                   engineOpts := some opts })

/-- A minimal model of a JSON response for the health endpoint. -/
structure HealthResponse where
  status : Nat
  body : List (String × String)
  deriving DecidableEq, Repr

/-- The `GET /health` handler: it reads no application state at all; the
parameter records the engine-readiness state it ignores. -/
def health (_engineReady : Bool) : HealthResponse :=
  { status := 200, body := [("status", "ok")] }

/-- Modelled from the spec: the assembled text is the segments' trimmed
texts joined by a single space, in segment order. -/
def specJoinedText : List String → String
  | [] => ""
  | [x] => x
  | x :: y :: rest => x ++ " " ++ specJoinedText (y :: rest)

/-! ### Helper lemmas -/

lemma specJoinedText_append_head (a b : String) (ys : List String) :
    specJoinedText ((a ++ b) :: ys) = a ++ specJoinedText (b :: ys) := by
  cases ys with
  | nil => rfl
  | cons z zs =>
      show a ++ b ++ " " ++ specJoinedText (z :: zs)
        = a ++ (b ++ " " ++ specJoinedText (z :: zs))
      simp only [String.append_assoc]

lemma pyJoin_foldl (xs : List String) (x : String) :
    List.foldl (fun acc y => acc ++ " " ++ y) x xs = specJoinedText (x :: xs) := by
  induction xs generalizing x with
  | nil => rfl
  | cons y ys ih =>
      rw [List.foldl_cons, ih (x ++ " " ++ y), specJoinedText_append_head]
      rfl

lemma pyJoin_eq_specJoinedText (xs : List String) :
    pyJoin " " xs = specJoinedText xs := by
  cases xs with
  | nil => rfl
  | cons x rest => exact pyJoin_foldl rest x

/-- Whatever options reach the engine, they are `buildOpts task language`
(or the engine was never reached). -/
lemma engineOpts_spec (filename language : Option String) (task : String)
    (save : SaveBehavior) (engine : EngineBehavior) :
    (transcribeEndpoint filename language task save engine).2.engineOpts = none ∨
      (transcribeEndpoint filename language task save engine).2.engineOpts
        = some (buildOpts task language) := by
  simp only [transcribeEndpoint]
  split
  · exact Or.inl rfl
  · cases save with
    | createFails m => exact Or.inl rfl
    | writeFails m => exact Or.inl rfl
    | ok =>
        cases engine with
        | raises m => exact Or.inr rfl
        | ok segs info =>
            rcases info with ⟨lang, prob⟩
            cases prob with
            | none => exact Or.inr rfl
            | some p => exact Or.inr rfl

/-- The save and engine stages each run at most once per request. -/
lemma trace_calls_le (filename language : Option String) (task : String)
    (save : SaveBehavior) (engine : EngineBehavior) :
    (transcribeEndpoint filename language task save engine).2.saveCalls ≤ 1 ∧
      (transcribeEndpoint filename language task save engine).2.engineCalls ≤ 1 := by
  simp only [transcribeEndpoint]
  split
  · exact ⟨Nat.zero_le 1, Nat.zero_le 1⟩
  · cases save with
    | createFails m => exact ⟨Nat.le_refl 1, Nat.zero_le 1⟩
    | writeFails m => exact ⟨Nat.le_refl 1, Nat.zero_le 1⟩
    | ok =>
        cases engine with
        | raises m => exact ⟨Nat.le_refl 1, Nat.le_refl 1⟩
        | ok segs info =>
            rcases info with ⟨lang, prob⟩
            cases prob with
            | none => exact ⟨Nat.le_refl 1, Nat.le_refl 1⟩
            | some p => exact ⟨Nat.le_refl 1, Nat.le_refl 1⟩

/-- `round(0.8267, 2)` is `0.83` in the rational model. -/
lemma pyRound2_example : pyRound2 (8267/10000) = 83/100 := by
  have hf : ⌊(8267/10000 * 100 : ℚ)⌋ = 82 := by
    rw [Int.floor_eq_iff]
    norm_num
  unfold pyRound2 roundHalfEven
  rw [hf]
  norm_num

/-! ### Claims -/

/-- Claim C1, counterexample.  The claim asserts that even when the write
of the uploaded bytes fails after the temp file's creation, a removal
attempt is made and the file does not exist afterwards.  On the code the
cleanup `finally` belongs only to the engine-invocation `try`, so a write
failure leaves the created file behind with no removal attempt. -/
theorem c1_counterexample :
    (transcribeEndpoint (some "clip.wav") none "transcribe"
        (.writeFails "disk full") (.ok [] ⟨none, none⟩)).2.tempCreated = true ∧
      ¬ ((transcribeEndpoint (some "clip.wav") none "transcribe"
            (.writeFails "disk full") (.ok [] ⟨none, none⟩)).2.removeAttempts = 1 ∧
          (transcribeEndpoint (some "clip.wav") none "transcribe"
            (.writeFails "disk full") (.ok [] ⟨none, none⟩)).2.tempExistsAfter = false) := by
  decide

/-- Claim C1 (amended): when the temp file was created and the write of
the uploaded bytes succeeded, exactly one removal attempt is made and the
file does not exist after the pipeline completes (success and engine
failure alike); but when the write fails after the file's creation, no
removal attempt is made and the file still exists afterwards. -/
theorem c1_cleanup_after_successful_save (filename language : Option String)
    (task : String) (engine : EngineBehavior) (m : String) :
    ((transcribeEndpoint filename language task .ok engine).2.tempCreated = true →
        (transcribeEndpoint filename language task .ok engine).2.removeAttempts = 1 ∧
          (transcribeEndpoint filename language task .ok engine).2.tempExistsAfter = false)
    ∧ ((transcribeEndpoint filename language task (.writeFails m) engine).2.tempCreated = true →
        (transcribeEndpoint filename language task (.writeFails m) engine).2.removeAttempts = 0 ∧
          (transcribeEndpoint filename language task (.writeFails m) engine).2.tempExistsAfter = true) := by
  constructor
  · simp only [transcribeEndpoint]
    split
    · intro h; simp at h
    · cases engine with
      | raises m2 => intro _; exact ⟨rfl, rfl⟩
      | ok segs info =>
          rcases info with ⟨lang, prob⟩
          cases prob with
          | none => intro _; exact ⟨rfl, rfl⟩
          | some p => intro _; exact ⟨rfl, rfl⟩
  · simp only [transcribeEndpoint]
    split
    · intro h; simp at h
    · intro _; exact ⟨rfl, rfl⟩

/-- Claim C1, witness at a concrete request. -/
theorem c1_witness :
    ((transcribeEndpoint (some "clip.wav") none "transcribe" .ok
        (.raises "boom")).2.removeAttempts = 1 ∧
      (transcribeEndpoint (some "clip.wav") none "transcribe" .ok
        (.raises "boom")).2.tempExistsAfter = false)
    ∧ ((transcribeEndpoint (some "clip.wav") none "transcribe"
          (.writeFails "disk full") (.raises "boom")).2.removeAttempts = 0 ∧
        (transcribeEndpoint (some "clip.wav") none "transcribe"
          (.writeFails "disk full") (.raises "boom")).2.tempExistsAfter = true) :=
  ⟨(c1_cleanup_after_successful_save (some "clip.wav") none "transcribe"
      (.raises "boom") "disk full").1 (by decide),
    (c1_cleanup_after_successful_save (some "clip.wav") none "transcribe"
      (.raises "boom") "disk full").2 (by decide)⟩

/-- Claim C2: a filename whose lower-cased `splitext` extension is in the
allow-list passes validation (the outcome is never a 400 and the save
stage runs); any other filename is rejected with the 400 message, and
then no save-stage call is made, no temp file is created and the engine
is never invoked; an absent filename yields the empty extension. -/
theorem c2_extension_validation (filename language : Option String) (task : String)
    (save : SaveBehavior) (engine : EngineBehavior) :
    (pyLower (splitextExt (filename.getD "")) ∈ ALLOWED_EXTENSIONS →
        (transcribeEndpoint filename language task save engine).1.is400 = false ∧
          (transcribeEndpoint filename language task save engine).2.saveCalls = 1)
    ∧ (pyLower (splitextExt (filename.getD "")) ∉ ALLOWED_EXTENSIONS →
        (transcribeEndpoint filename language task save engine).1
            = .httpError 400 (unsupportedMsg (pyLower (splitextExt (filename.getD "")))) ∧
          (transcribeEndpoint filename language task save engine).2.saveCalls = 0 ∧
          (transcribeEndpoint filename language task save engine).2.tempCreated = false ∧
          (transcribeEndpoint filename language task save engine).2.engineCalls = 0)
    ∧ pyLower (splitextExt ((none : Option String).getD "")) = "" := by
  refine ⟨?_, ?_, rfl⟩
  · intro h
    simp only [transcribeEndpoint]
    split
    · rename_i hc; exact absurd h hc
    · cases save with
      | createFails m => exact ⟨rfl, rfl⟩
      | writeFails m => exact ⟨rfl, rfl⟩
      | ok =>
          cases engine with
          | raises m => exact ⟨rfl, rfl⟩
          | ok segs info =>
              rcases info with ⟨lang, prob⟩
              cases prob with
              | none => exact ⟨rfl, rfl⟩
              | some p => exact ⟨rfl, rfl⟩
  · intro h
    simp only [transcribeEndpoint]
    split
    · exact ⟨rfl, rfl, rfl, rfl⟩
    · rename_i hc; exact absurd h hc

/-- Claim C2, witness: `clip.wav` passes validation, `clip.xyz` is
rejected with 400 and without side effects. -/
theorem c2_witness :
    ((transcribeEndpoint (some "clip.wav") none "transcribe" .ok
        (.raises "x")).1.is400 = false ∧
      (transcribeEndpoint (some "clip.wav") none "transcribe" .ok
        (.raises "x")).2.saveCalls = 1)
    ∧ ((transcribeEndpoint (some "clip.xyz") none "transcribe" .ok
          (.raises "x")).1
            = .httpError 400 (unsupportedMsg (pyLower (splitextExt
                ((some "clip.xyz" : Option String).getD "")))) ∧
        (transcribeEndpoint (some "clip.xyz") none "transcribe" .ok
          (.raises "x")).2.saveCalls = 0 ∧
        (transcribeEndpoint (some "clip.xyz") none "transcribe" .ok
          (.raises "x")).2.tempCreated = false ∧
        (transcribeEndpoint (some "clip.xyz") none "transcribe" .ok
          (.raises "x")).2.engineCalls = 0) :=
  ⟨(c2_extension_validation (some "clip.wav") none "transcribe" .ok
      (.raises "x")).1 (by decide),
    (c2_extension_validation (some "clip.xyz") none "transcribe" .ok
      (.raises "x")).2.1 (by decide)⟩

/-- Claim C3, counterexample.  The claim asserts that any supplied
language value other than unset/`"auto"` reaches the engine verbatim.
With `language=""` (a supplied value other than `"auto"`), the Python
truthiness test `if language and language != "auto"` is false, so the
options passed to the engine carry no language field instead of `""`. -/
theorem c3_counterexample :
    (transcribeEndpoint (some "clip.wav") (some "") "transcribe" .ok
        (.ok [] ⟨none, some 1⟩)).2.engineOpts
      = some (buildOpts "transcribe" (some "")) ∧
    (buildOpts "transcribe" (some "")).language = none ∧
    (buildOpts "transcribe" (some "")).language ≠ some "" := by
  refine ⟨rfl, rfl, ?_⟩
  decide

/-- Claim C3 (amended): with language unset, `"auto"`, or the empty
string, the options passed to the engine contain no language field; any
other supplied language value appears verbatim as the language field of
the options, and the options reaching the engine are exactly
`buildOpts task language`. -/
theorem c3_language_normalization (task l : String) (filename language : Option String)
    (save : SaveBehavior) (engine : EngineBehavior) :
    (buildOpts task none).language = none
    ∧ (buildOpts task (some "auto")).language = none
    ∧ (buildOpts task (some "")).language = none
    ∧ (l ≠ "" → l ≠ "auto" → (buildOpts task (some l)).language = some l)
    ∧ ((transcribeEndpoint filename language task save engine).2.engineOpts = none
        ∨ (transcribeEndpoint filename language task save engine).2.engineOpts
            = some (buildOpts task language)) := by
  refine ⟨rfl, rfl, rfl, ?_, engineOpts_spec filename language task save engine⟩
  intro h1 h2
  simp [buildOpts, h1, h2]

/-- Claim C3, witness: `language="hi"` passes through verbatim and unset
language is omitted. -/
theorem c3_witness :
    (buildOpts "transcribe" (some "hi")).language = some "hi"
    ∧ (buildOpts "transcribe" none).language = none :=
  ⟨(c3_language_normalization "transcribe" "hi" none none .ok
      (.raises "x")).2.2.2.1 (by decide) (by decide),
    (c3_language_normalization "transcribe" "hi" none none .ok
      (.raises "x")).1⟩

/-- Claim C4: the effective task field of the options is always
`"transcribe"` or `"translate"`; a task equal to one of the two is used
as given; any other value falls back to `"transcribe"`, in particular
`"summarize"` does. -/
theorem c4_task_normalization (task : String) (language : Option String) :
    ((buildOpts task language).task = "transcribe"
        ∨ (buildOpts task language).task = "translate")
    ∧ (task = "transcribe" ∨ task = "translate" →
        (buildOpts task language).task = task)
    ∧ (task ≠ "transcribe" → task ≠ "translate" →
        (buildOpts task language).task = "transcribe")
    ∧ (buildOpts "summarize" language).task = "transcribe" := by
  refine ⟨?_, ?_, ?_, rfl⟩
  · by_cases h : task = "transcribe" ∨ task = "translate"
    · have ht : (buildOpts task language).task = task := by
        simp [buildOpts, if_pos h]
      rw [ht]; exact h
    · have ht : (buildOpts task language).task = "transcribe" := by
        simp [buildOpts, if_neg h]
      rw [ht]; exact Or.inl rfl
  · intro h
    simp [buildOpts, if_pos h]
  · intro h1 h2
    simp [buildOpts, h1, h2]

/-- Claim C4, witness: `"translate"` is used as given, `"summarize"`
falls back to `"transcribe"`. -/
theorem c4_witness :
    (buildOpts "translate" none).task = "translate"
    ∧ (buildOpts "summarize" none).task = "transcribe" :=
  ⟨(c4_task_normalization "translate" none).2.1 (Or.inr rfl),
    (c4_task_normalization "summarize" none).2.2.1 (by decide) (by decide)⟩

/-- Claim C5: for every finite list of segments the assembled text is
the segments' trimmed texts joined by a single space in segment order,
and on `["Namaste,", "how are you"]` it equals
`"Namaste, how are you"`. -/
theorem c5_text_assembly (segments : List Segment) :
    assembleText segments
        = specJoinedText (segments.map (fun seg => pyStrip seg.text))
    ∧ assembleText [⟨"Namaste,"⟩, ⟨"how are you"⟩] = "Namaste, how are you" := by
  constructor
  · unfold assembleText
    exact pyJoin_eq_specJoinedText _
  · decide

/-- Claim C6: validation failure maps to 400 with the message naming the
rejected extension and the allowed set; a storage failure (creation or
write) maps to 500 embedding the underlying cause; an engine failure
maps to 500 embedding the underlying cause; and no error kind is retried
(the save and engine stages each run at most once). -/
theorem c6_error_mapping (filename language : Option String) (task : String)
    (save : SaveBehavior) (engine : EngineBehavior) (m : String) :
    (pyLower (splitextExt (filename.getD "")) ∉ ALLOWED_EXTENSIONS →
        (transcribeEndpoint filename language task save engine).1
          = .httpError 400 (unsupportedMsg (pyLower (splitextExt (filename.getD "")))))
    ∧ (pyLower (splitextExt (filename.getD "")) ∈ ALLOWED_EXTENSIONS →
        save = .createFails m →
          (transcribeEndpoint filename language task save engine).1
            = .httpError 500 ("Failed to save file: " ++ m))
    ∧ (pyLower (splitextExt (filename.getD "")) ∈ ALLOWED_EXTENSIONS →
        save = .writeFails m →
          (transcribeEndpoint filename language task save engine).1
            = .httpError 500 ("Failed to save file: " ++ m))
    ∧ (pyLower (splitextExt (filename.getD "")) ∈ ALLOWED_EXTENSIONS →
        save = .ok → engine = .raises m →
          (transcribeEndpoint filename language task save engine).1
            = .httpError 500 ("Transcription failed: " ++ m))
    ∧ (transcribeEndpoint filename language task save engine).2.saveCalls ≤ 1
    ∧ (transcribeEndpoint filename language task save engine).2.engineCalls ≤ 1 := by
  refine ⟨?_, ?_, ?_, ?_,
    (trace_calls_le filename language task save engine).1,
    (trace_calls_le filename language task save engine).2⟩
  · intro h
    simp only [transcribeEndpoint]
    split
    · rfl
    · rename_i hc; exact absurd h hc
  · intro h hs
    subst hs
    simp only [transcribeEndpoint]
    split
    · rename_i hc; exact absurd h hc
    · rfl
  · intro h hs
    subst hs
    simp only [transcribeEndpoint]
    split
    · rename_i hc; exact absurd h hc
    · rfl
  · intro h hs he
    subst hs; subst he
    simp only [transcribeEndpoint]
    split
    · rename_i hc; exact absurd h hc
    · rfl

/-- Claim C6, witness: the three failure kinds at concrete requests. -/
theorem c6_witness :
    (transcribeEndpoint (some "clip.xyz") none "transcribe" .ok
        (.raises "x")).1
      = .httpError 400 (unsupportedMsg (pyLower (splitextExt
          ((some "clip.xyz" : Option String).getD ""))))
    ∧ (transcribeEndpoint (some "a.wav") none "transcribe"
          (.createFails "io fault") (.raises "x")).1
        = .httpError 500 ("Failed to save file: " ++ "io fault")
    ∧ (transcribeEndpoint (some "a.wav") none "transcribe"
          (.writeFails "io fault") (.raises "x")).1
        = .httpError 500 ("Failed to save file: " ++ "io fault")
    ∧ (transcribeEndpoint (some "a.wav") none "transcribe" .ok
          (.raises "decode fault")).1
        = .httpError 500 ("Transcription failed: " ++ "decode fault") :=
  ⟨(c6_error_mapping (some "clip.xyz") none "transcribe" .ok
      (.raises "x") "m").1 (by decide),
    (c6_error_mapping (some "a.wav") none "transcribe"
      (.createFails "io fault") (.raises "x") "io fault").2.1 (by decide) rfl,
    (c6_error_mapping (some "a.wav") none "transcribe"
      (.writeFails "io fault") (.raises "x") "io fault").2.2.1 (by decide) rfl,
    (c6_error_mapping (some "a.wav") none "transcribe" .ok
      (.raises "decode fault") "decode fault").2.2.2.1 (by decide) rfl rfl⟩

/-- Claim C7: on a successful transcription whose engine info reports a
confidence, the surfaced `language_probability` is that confidence
rounded to two decimal places (ties to even, Python `round`), and in
particular `0.8267` is surfaced as `0.83`. -/
theorem c7_probability_rounding (language : Option String) (task : String)
    (segments : List Segment) (il : Option String) (p : ℚ) :
    (transcribeEndpoint (some "clip.wav") language task .ok
        (.ok segments ⟨il, some p⟩)).1
      = .success (assembleText segments) il (pyRound2 p)
    ∧ pyRound2 (8267/10000) = 83/100 :=
  ⟨rfl, pyRound2_example⟩

/-- Claim C8, counterexample.  The claim asserts that a request whose
engine provides no language metadata (no language and/or no confidence)
still yields a success response.  When the confidence is absent, the
handler's `round(info.language_probability, 2)` is `round(None, 2)`,
which raises an unhandled `TypeError` instead of producing a success. -/
theorem c8_counterexample :
    (transcribeEndpoint (some "clip.wav") none "transcribe" .ok
        (.ok [⟨"Namaste"⟩] ⟨none, none⟩)).1 = .unhandledTypeError
    ∧ (transcribeEndpoint (some "clip.wav") none "transcribe" .ok
        (.ok [⟨"Namaste"⟩] ⟨none, none⟩)).1.isSuccess = false := by
  refine ⟨rfl, ?_⟩
  decide

/-- Claim C8 (amended): absence of the detected language alone does not
cause an error — with a confidence present and no language, the response
is a success carrying the text (and a null detected language); but if
the engine provides no confidence value, the handler raises an unhandled
`TypeError` and no success response is produced. -/
theorem c8_optional_language_metadata (language : Option String) (task : String)
    (segments : List Segment) (lang : Option String) (p : ℚ) :
    (transcribeEndpoint (some "clip.wav") language task .ok
        (.ok segments ⟨none, some p⟩)).1
      = .success (assembleText segments) none (pyRound2 p)
    ∧ (transcribeEndpoint (some "clip.wav") language task .ok
        (.ok segments ⟨lang, none⟩)).1 = .unhandledTypeError :=
  ⟨rfl, rfl⟩

/-- Claim C9: the options reaching the engine always carry the fixed
tuning values `beam_size=1`, `best_of=1`, `temperature=0.0`,
`vad_filter=true`, `min_silence_duration_ms=300`, `speech_pad_ms=200`,
independent of all client input; any options reaching the engine are
exactly `buildOpts task language`, so only the task and language fields
vary with the request. -/
theorem c9_fixed_tuning (filename language : Option String) (task : String)
    (save : SaveBehavior) (engine : EngineBehavior) :
    (buildOpts task language).beam_size = 1
    ∧ (buildOpts task language).best_of = 1
    ∧ (buildOpts task language).temperature = 0
    ∧ (buildOpts task language).vad_filter = true
    ∧ (buildOpts task language).vad_parameters.min_silence_duration_ms = 300
    ∧ (buildOpts task language).vad_parameters.speech_pad_ms = 200
    ∧ ((transcribeEndpoint filename language task save engine).2.engineOpts = none
        ∨ (transcribeEndpoint filename language task save engine).2.engineOpts
            = some (buildOpts task language)) :=
  ⟨rfl, rfl, rfl, rfl, rfl, rfl,
    engineOpts_spec filename language task save engine⟩

/-- Claim C10: the health endpoint returns status 200 with body
`{"status": "ok"}` whatever the engine-readiness state is. -/
theorem c10_health (engineReady : Bool) :
    health engineReady = { status := 200, body := [("status", "ok")] }
    ∧ health engineReady = health (!engineReady) :=
  ⟨rfl, rfl⟩

end STT
